import Mathlib

/-!
# Verification of the MVR-xchange peer-session layer (`mvrx_protocol.py`)

Shallow embedding of the two classes `DMX_MVR_X_Client` and `DMX_MVR_X_Server`
of `mvrx_protocol.py`, together with theorems settling the specification
claims about identity management, message dispatch, the join/leave lifecycle
and file-transfer path derivation.

Modelling conventions:
* Python `uuid.uuid4()` draws sixteen random bytes (modelled by a `seed : Nat`)
  and forces the RFC-4122 variant and version bits; we model the resulting
  128-bit integer value (`uuid4`).  Python renders it as a hex string; the
  rendering is injective, so identity claims are stated on the integer value.
* The addon preference store lookup `prefs.get("application_uuid", default)`
  is modelled by an `Option Nat` argument (`none` = key absent).
* External calls made by the two classes (prints, log lines, calls into the
  `dmx` scene object, calls on the transport objects from
  `dmx.mvrxchange`, raising an uncaught exception) are recorded as an
  explicit effect trace (`Eff`).  The vocabulary also contains actions the
  Python code *could* perform but never does (closing the connection,
  raising an error from inside a handler); their absence from a trace is
  meaningful.
* Construction of a transport object (`mvrx_client.client(...)` /
  `mvrx_server.server(...)`) can raise; success of the `k`-th construction
  attempt in the process is given by an oracle `Nat → Bool`, and functions
  thread the attempt counter `k`, so "no internal retry" is visible as the
  counter advancing by exactly one.
* Class-level mutable state (`_instance`, the scene's `mvrx_enabled` flag)
  is threaded explicitly (`ClientGlobal`, `ServerGlobal`).
-/

/-- A commit record, §3 of the design: immutable description of one
published edit.  `mvrx_protocol.py` reads only `commit_uuid`. -/
structure Commit where
  commit_uuid : String
  file_uuid : String
  station_uuid : String
  timestamp : Nat
  comment : String
deriving DecidableEq

/-- A JSON scalar as far as the `OK` field is concerned: the code tests
`data.get("OK", "") is False`, which is true exactly for the JSON boolean
`false`. -/
inductive JVal where
  | jbool (b : Bool)
  | jstr (s : String)
  | jnull
deriving DecidableEq

/-- An inbound wire message: the recognized fields of §6, each optional
(`none` = key absent from the JSON object).  `Type_` models the `"Type"`
key (`Type` is reserved in Lean). -/
structure Message where
  StationUUID : Option String := none
  Commits : Option (List Commit) := none
  FileUUID : Option String := none
  Provider : Option String := none
  StationName : Option String := none
  file_downloaded : Option String := none
  Type_ : Option String := none
  OK : Option JVal := none
deriving DecidableEq

/-- Exceptions that the embedded code can raise (uncaught). -/
inductive PyErr where
  | attributeErrorNoneType
  | attributeErrorMissingAttr
  | notConnected
  | connectionError
deriving DecidableEq

/-- One observable external action of `mvrx_protocol.py`.  `closeConnection`
and `raiseError` are never emitted by the embedded code; they are part of
the vocabulary so that claims about "keeps the connection open" and
"fails with error E" are statable. -/
inductive Eff where
  | print (s : String)
  | logError (s : String)
  | logInfo (s : String)
  | createMVR_Commits_list (commits : List Commit) (station_uuid : String)
  | createMVR_Commits_single (data : Message) (station_uuid : String)
  | updateMVR_Client (provider : String) (station_uuid : String)
  | createMVR_Client (station_name : String) (station_uuid : String)
      (service_name : Option String) (ip_address : String) (port : Nat)
      (provider : String)
  | fetched_mvr_downloaded_file (path : String)
  | setMvrxEnabled (b : Bool)
  | startThread
  | startServer
  | stopTransport
  | join_mvr
  | leave_mvr
  | sleepGrace
  | request_file_transport (commit_uuid : String) (path : String)
  | closeConnection
  | raiseError (e : PyErr)
deriving DecidableEq

/-- Python's `uuid.uuid4()` as a 128-bit integer: sixteen random bytes
(the `seed`), then the RFC-4122 variant bits (`int &= ~(0xC000 << 48);
int |= 0x8000 << 48`) and the version nibble (`int &= ~(0xF000 << 64);
int |= 4 << 76`) are forced. -/
def uuid4 (seed : Nat) : Nat :=
  let r0 := seed % 2 ^ 128
  let r1 := (r0 &&& ((2 ^ 128 - 1) ^^^ (0x3 <<< 62))) ||| (0x2 <<< 62)
  (r1 &&& ((2 ^ 128 - 1) ^^^ (0xF <<< 76))) ||| (0x4 <<< 76)

/-- Lines 21–24 of `mvrx_protocol.py` (`DMX_MVR_X_Client.__init__`):
`prefs.get("application_uuid", str(py_uuid.uuid4()))` — the stored
preference when present, otherwise a freshly generated uuid; nothing is
ever written back to the store. -/
def DMX_MVR_X_Client.init_uuid (prefs : Option Nat) (seed : Nat) : Nat :=
  prefs.getD (uuid4 seed)

/-- Lines 133–136 of `mvrx_protocol.py` (`DMX_MVR_X_Server.__init__`):
textually the same lookup as the client's. -/
def DMX_MVR_X_Server.init_uuid (prefs : Option Nat) (seed : Nat) : Nat :=
  prefs.getD (uuid4 seed)

lemma uuid4_testBit78 (seed : Nat) : (uuid4 seed).testBit 78 = true := by
  have h : Nat.testBit (4 <<< 76) 78 = true := by decide
  unfold uuid4
  simp only [Nat.testBit_lor]
  rw [h, Bool.or_true]

lemma uuid4_ne_zero (seed : Nat) : uuid4 seed ≠ 0 := by
  intro h
  have hb := uuid4_testBit78 seed
  rw [h] at hb
  simp [Nat.zero_testBit] at hb

/-- A discovered peer as selected in the UI (`selected_client` in the
source): carries the network address the client dials. -/
structure Peer where
  ip_address : String
  port : Nat
deriving DecidableEq

/-- The transport object `mvrx_client.client(ip, port, timeout=0, callback,
application_uuid)` (its class lives in `dmx.mvrxchange`, outside the
excerpt); we track the construction arguments of line 84. -/
structure Transport where
  ip_address : String
  port : Nat
  application_uuid : Nat
deriving DecidableEq

/-- One `DMX_MVR_X_Client` instance: fields assigned in `__init__`
(lines 15–24). -/
structure ClientInstance where
  client : Option Transport
  selected_client : Option Peer
  application_uuid : Nat
deriving DecidableEq

/-- Class-level client state: the `_instance` class attribute (line 13)
plus the scene flag `dmx.mvrx_enabled` written at line 48. -/
structure ClientGlobal where
  _instance : Option ClientInstance
  mvrx_enabled : Bool
deriving DecidableEq

/-- `DMX_MVR_X_Client.__init__` (lines 15–24): a fresh instance has
`client = None`, `selected_client = None` and the application uuid from
the preference lookup. -/
def DMX_MVR_X_Client.new_instance (prefs : Option Nat) (seed : Nat) :
    ClientInstance :=
  { client := none, selected_client := none,
    application_uuid := DMX_MVR_X_Client.init_uuid prefs seed }

/-- `DMX_MVR_X_Client.callback` (lines 27–48): the effect trace produced
for one inbound message.  Mirrors the source exactly: an early return when
`"StationUUID"` is absent, then one independent `if` per recognized field,
then the `MVR_JOIN_RET`/`OK is False` rejection branch. -/
def DMX_MVR_X_Client.callback (data : Message) : List Eff :=
  match data.StationUUID with
  | none => [Eff.print "Bad response"]
  | some uuid =>
    (match data.Commits with
     | some cs => [Eff.createMVR_Commits_list cs uuid]
     | none => []) ++
    (match data.FileUUID with
     | some _ => [Eff.createMVR_Commits_single data uuid]
     | none => []) ++
    (match data.Provider with
     | some provider => [Eff.updateMVR_Client provider uuid]
     | none => []) ++
    (match data.file_downloaded with
     | some path => [Eff.fetched_mvr_downloaded_file path]
     | none => []) ++
    (if data.Type_.getD "" = "MVR_JOIN_RET" ∧ data.OK = some (JVal.jbool false)
     then [Eff.logError "MVR-xchange client refused our connection",
           Eff.setMvrxEnabled false]
     else [])

/-- `DMX_MVR_X_Client.disable` (lines 101–111): stops the transport when
one is attached and clears `_instance`; the final `print("i am gone")` is
outside the `if` and always runs. -/
def DMX_MVR_X_Client.disable (s : ClientGlobal) : ClientGlobal × List Eff :=
  match s._instance with
  | some inst =>
    ({ s with _instance := none },
     [Eff.print "stop one"] ++
     (match inst.client with
      | some _ => [Eff.print "stop two", Eff.stopTransport]
      | none => []) ++
     [Eff.print "stopped", Eff.logInfo "Disabling MVR", Eff.print "i am gone"])
  | none => (s, [Eff.print "i am gone"])

/-- Modelled from the spec: the update handler of the scene property
`dmx.mvrx_enabled` is not under `src/` (only the write at line 48 is).
Per §4.1/§7 of the spec, disabling the toggle makes the client session
"transition to `Disconnected`" and "disable further join attempts until
the user acts again"; we model it as recording the flag and, when the
flag is cleared, tearing the session down via `DMX_MVR_X_Client.disable`
(which is in `src/`). -/
def on_mvrx_enabled_set (s : ClientGlobal) (b : Bool) : ClientGlobal :=
  let s1 : ClientGlobal := { s with mvrx_enabled := b }
  if b then s1 else (DMX_MVR_X_Client.disable s1).1

/-- Modelled from the spec: "the caller is expected to disable further
join attempts until the user acts again" — join attempts are gated on the
`mvrx_enabled` flag. -/
def join_attempts_allowed (s : ClientGlobal) : Bool :=
  s.mvrx_enabled

/-- Applying one recorded effect to the client-side state: only the write
to `dmx.mvrx_enabled` touches it (all other effects are calls into
external collaborators or log output). -/
def applyClientEff (s : ClientGlobal) (e : Eff) : ClientGlobal :=
  match e with
  | Eff.setMvrxEnabled b => on_mvrx_enabled_set s b
  | _ => s

/-- Applying a whole effect trace in order. -/
def applyClientEffs (s : ClientGlobal) (effs : List Eff) : ClientGlobal :=
  effs.foldl applyClientEff s

/-- `DMX_MVR_X_Client.connect` (lines 77–90).  `oracle k` tells whether the
`k`-th transport construction attempt of the process succeeds; the
returned counter shows how many attempts were consumed.  The whole body up
to the constructor call is inside `try/except` — a failure is printed and
swallowed, never re-raised.  When `selected_client` is `None`, evaluating
`client.ip_address` raises inside the `try` before anything is printed,
so only the `except` print appears. -/
def DMX_MVR_X_Client.connect (oracle : Nat → Bool) (k : Nat)
    (s : ClientGlobal) : ClientGlobal × List Eff × Nat :=
  match s._instance with
  | none => (s, [], k)
  | some inst =>
    match inst.selected_client with
    | none => (s, [Eff.print "Cannot connect to host"], k)
    | some peer =>
      if oracle k then
        ({ s with _instance := some { inst with
            client := some ⟨peer.ip_address, peer.port, inst.application_uuid⟩ } },
         [Eff.print "Connecting to MVR-xchange client", Eff.startThread,
          Eff.print "thread started"],
         k + 1)
      else
        (s, [Eff.print "Connecting to MVR-xchange client",
             Eff.print "Cannot connect to host"],
         k + 1)

/-- `DMX_MVR_X_Client.join` (lines 92–99): installs a fresh instance with
the chosen peer, calls `connect()`, then *unconditionally* calls
`join_mvr()` on the `client` attribute — which raises an uncaught
`AttributeError` on `None` when the connection was not established. -/
def DMX_MVR_X_Client.join (prefs : Option Nat) (seed : Nat)
    (oracle : Nat → Bool) (k : Nat) (s : ClientGlobal) (peer : Peer) :
    Except PyErr (ClientGlobal × List Eff × Nat) :=
  let inst0 := DMX_MVR_X_Client.new_instance prefs seed
  let s1 : ClientGlobal :=
    { s with _instance := some { inst0 with selected_client := some peer } }
  let r := DMX_MVR_X_Client.connect oracle k s1
  match (r.1)._instance with
  | some inst2 =>
    match inst2.client with
    | some _ => Except.ok (r.1, r.2.1 ++ [Eff.join_mvr, Eff.logInfo "Joining"], r.2.2)
    | none => Except.error PyErr.attributeErrorNoneType
  | none => Except.error PyErr.attributeErrorNoneType

/-- `DMX_MVR_X_Client.leave` (lines 113–122): when an instance with an
attached transport exists, reconnect, send LEAVE, sleep 0.3 s, stop the
transport; in every branch that had an instance, `_instance` is cleared.
The attribute access `_instance.client.leave_mvr()` after `connect()` is
modelled faithfully: were the `client` attribute `None` there, the
uncaught `AttributeError` would abort before any state change (that
branch is proved unreachable below). -/
def DMX_MVR_X_Client.leave (oracle : Nat → Bool) (k : Nat)
    (s : ClientGlobal) : ClientGlobal × List Eff × Nat :=
  match s._instance with
  | none => (s, [], k)
  | some inst =>
    match inst.client with
    | none => ({ s with _instance := none }, [Eff.logInfo "Disabling MVR"], k)
    | some _ =>
      let r := DMX_MVR_X_Client.connect oracle k s
      match (r.1)._instance with
      | some inst2 =>
        match inst2.client with
        | some _ =>
          ({ r.1 with _instance := none },
           r.2.1 ++ [Eff.leave_mvr, Eff.sleepGrace, Eff.stopTransport,
                     Eff.logInfo "Disabling MVR"],
           r.2.2)
        | none => (r.1, r.2.1 ++ [Eff.raiseError PyErr.attributeErrorNoneType], r.2.2)
      | none => (r.1, r.2.1 ++ [Eff.raiseError PyErr.attributeErrorNoneType], r.2.2)

/-- Lines 55–56 (`DMX_MVR_X_Client.request_file`): the local target path,
`os.path.join(ADDON_PATH, "assets", "mvrs", f"(commit.commit_uuid).mvr")`
where `ADDON_PATH = os.path.dirname(os.path.abspath(__file__))`. -/
def client_target_path (addon_path : String) (commit : Commit) : String :=
  addon_path ++ "/assets/mvrs/" ++ commit.commit_uuid ++ ".mvr"

/-- Lines 165–166 (`DMX_MVR_X_Server.request_file`): textually the same
path expression as the client's, from the same `__file__`. -/
def server_target_path (addon_path : String) (commit : Commit) : String :=
  addon_path ++ "/assets/mvrs/" ++ commit.commit_uuid ++ ".mvr"

/-- `DMX_MVR_X_Client.request_file` (lines 50–63): silently returns when
there is no instance or no attached transport; otherwise computes the
target path, reconnects, and calls `request_file` on the (fresh)
transport inside `try/except`. -/
def DMX_MVR_X_Client.request_file (oracle : Nat → Bool) (k : Nat)
    (addon_path : String) (s : ClientGlobal) (commit : Commit) :
    ClientGlobal × List Eff × Nat :=
  match s._instance with
  | none => (s, [], k)
  | some inst =>
    match inst.client with
    | none => (s, [], k)
    | some _ =>
      let path := client_target_path addon_path commit
      let r := DMX_MVR_X_Client.connect oracle k s
      match (r.1)._instance with
      | some inst2 =>
        match inst2.client with
        | some _ =>
          (r.1,
           r.2.1 ++ [Eff.request_file_transport commit.commit_uuid path,
                     Eff.logInfo "Requesting file"],
           r.2.2)
        | none => (r.1, r.2.1 ++ [Eff.print "problem requesting file"], r.2.2)
      | none => (r.1, r.2.1 ++ [Eff.print "problem requesting file"], r.2.2)

/-- The listening transport `mvrx_server.server(callback, uuid)` (class in
`dmx.mvrxchange`, outside the excerpt); we track the construction argument
of line 180. -/
structure ServerTransport where
  application_uuid : Nat
deriving DecidableEq

/-- One `DMX_MVR_X_Server` instance: fields assigned in `__init__`
(lines 128–136). -/
structure ServerInstance where
  server : Option ServerTransport
  application_uuid : Nat
deriving DecidableEq

/-- Class-level server state: the `_instance` class attribute (line 126). -/
structure ServerGlobal where
  _instance : Option ServerInstance
deriving DecidableEq

/-- `DMX_MVR_X_Server.callback` (lines 139–159): the effect trace for one
inbound message together with the sender's address.  Same early return on
a missing `"StationUUID"` after the unconditional debug print; independent
`if`s per field; `StationName` defaults to `""`; `service_name` is passed
as `None`.  There is no `Type`/`OK` branch on the server side. -/
def DMX_MVR_X_Server.callback (json_data : Message) (addr : String)
    (port : Nat) : List Eff :=
  Eff.print "callback" ::
  match json_data.StationUUID with
  | none => [Eff.print "Bad response"]
  | some uuid =>
    (match json_data.Commits with
     | some cs => [Eff.createMVR_Commits_list cs uuid]
     | none => []) ++
    (match json_data.FileUUID with
     | some _ => [Eff.createMVR_Commits_single json_data uuid]
     | none => []) ++
    (match json_data.Provider with
     | some provider =>
       [Eff.createMVR_Client (json_data.StationName.getD "") uuid none addr
          port provider]
     | none => []) ++
    (match json_data.file_downloaded with
     | some path => [Eff.fetched_mvr_downloaded_file path]
     | none => [])

/-- `DMX_MVR_X_Server.request_file` (lines 161–172).  When an instance
exists, the guard reads `DMX_MVR_X_Server._instance.DMX_MVR_X_Server` —
an attribute that exists neither on the instance nor on the class — so an
uncaught `AttributeError` is raised *before* the `try` block, the path
computation (lines 165–166) and the transfer call (line 168, which uses
`_instance.server`, revealing the guard as a slip) are never reached. -/
def DMX_MVR_X_Server.request_file (s : ServerGlobal) (commit : Commit) :
    Except PyErr (List Eff) :=
  match s._instance with
  | none => Except.ok []
  | some _ => Except.error PyErr.attributeErrorMissingAttr

/-- `DMX_MVR_X_Server.enable` (lines 174–185): returns immediately when an
instance already exists; otherwise installs a fresh instance *first*, then
tries to construct the listening transport inside `try/except` (a failure
is printed and swallowed, leaving `_instance.server = None`), and on
success starts it. -/
def DMX_MVR_X_Server.enable (prefs : Option Nat) (seed : Nat)
    (oracle : Nat → Bool) (k : Nat) (s : ServerGlobal) :
    ServerGlobal × List Eff × Nat :=
  match s._instance with
  | some _ => (s, [], k)
  | none =>
    let au := DMX_MVR_X_Server.init_uuid prefs seed
    if oracle k then
      ({ _instance := some { server := some ⟨au⟩, application_uuid := au } },
       [Eff.startServer], k + 1)
    else
      ({ _instance := some { server := none, application_uuid := au } },
       [Eff.print "Cannot connect to host"], k + 1)

/-! ## Concrete states and inputs used by witnesses and counterexamples -/

/-- Construction oracle under which every transport construction succeeds. -/
def oracleT : Nat → Bool := fun _ => true

/-- Construction oracle under which every transport construction fails. -/
def oracleF : Nat → Bool := fun _ => false

/-- Client state with no instance (`DMX_MVR_X_Client._instance is None`). -/
def sNone : ClientGlobal := { _instance := none, mvrx_enabled := true }

/-- A sample commit. -/
def cX : Commit := ⟨"c9", "f9", "B2", 3, "note"⟩

/-- A sample peer. -/
def peerY : Peer := ⟨"10.0.0.2", 4568⟩

/-- A sample attached transport. -/
def tY : Transport := ⟨"10.0.0.2", 4568, 5⟩

/-- A client instance with an attached transport and a selected peer. -/
def instY : ClientInstance :=
  { client := some tY, selected_client := some peerY, application_uuid := 5 }

/-- Client state with a live instance and attached transport. -/
def sConn : ClientGlobal := { _instance := some instY, mvrx_enabled := true }

/-- A client instance with a selected peer but no transport yet. -/
def instSel : ClientInstance :=
  { client := none, selected_client := some ⟨"10.0.0.7", 1234⟩,
    application_uuid := 5 }

/-- Client state holding `instSel`. -/
def sSel : ClientGlobal := { _instance := some instSel, mvrx_enabled := true }

/-- A client instance with neither transport nor selected peer (the state
`join` leaves behind when the connection could not be established). -/
def instNoClient : ClientInstance :=
  { client := none, selected_client := none, application_uuid := 9 }

/-- Client state holding `instNoClient`. -/
def sHalf : ClientGlobal := { _instance := some instNoClient, mvrx_enabled := true }

/-- An enabled server state. -/
def sSrv : ServerGlobal :=
  { _instance := some { server := some ⟨11⟩, application_uuid := 11 } }

/-- A message with no fields at all (in particular no `StationUUID`). -/
def mEmpty : Message := {}

/-! ## Helper lemmas -/

/-- `connect` never detaches an attached transport: whatever branch is
taken (no selection, construction failure, construction success), the
resulting instance still has `client = some _`. -/
lemma connect_keeps_client (oracle : Nat → Bool) (k : Nat)
    (s : ClientGlobal) (inst : ClientInstance) (t : Transport)
    (h1 : s._instance = some inst) (h2 : inst.client = some t) :
    ∃ inst2 t2,
      ((DMX_MVR_X_Client.connect oracle k s).1)._instance = some inst2 ∧
      inst2.client = some t2 := by
  unfold DMX_MVR_X_Client.connect
  rw [h1]
  cases hsel : inst.selected_client with
  | none => exact ⟨inst, t, by simp [hsel, h1], h2⟩
  | some peer =>
    by_cases ho : oracle k
    · exact ⟨{ inst with
          client := some ⟨peer.ip_address, peer.port, inst.application_uuid⟩ },
        ⟨peer.ip_address, peer.port, inst.application_uuid⟩,
        by simp [hsel, ho], rfl⟩
    · exact ⟨inst, t, by simp [hsel, ho, h1], h2⟩

/-! ## Claim C1 — station identity -/

/-- C1, counterexample.  The claim says the station identifier is generated
at most once per process and that every construction of
`DMX_MVR_X_Client` reads the same value.  But line 23 never writes the
generated uuid back to the preference store, so whenever the
`"application_uuid"` key is absent, every construction (each `join()`
makes one, line 94) draws a *fresh* uuid: two successive constructions
whose random draws are the bytes `0` and `1` read different values. -/
theorem mvrx_C1_counterexample :
    (DMX_MVR_X_Client.new_instance none 0).application_uuid ≠
    (DMX_MVR_X_Client.new_instance none 1).application_uuid := by
  decide

/-- C1, amended: freshly generated station identifiers are never the
all-zero value, and *when the preference store holds the
`"application_uuid"` key* every construction of `DMX_MVR_X_Client` and of
`DMX_MVR_X_Server` reads that same stored value; when the key is absent,
each construction returns the uuid freshly drawn at that construction
(nothing is persisted). -/
theorem mvrx_C1_amended (u seedC seedS : Nat) :
    DMX_MVR_X_Client.init_uuid (some u) seedC = u ∧
    DMX_MVR_X_Server.init_uuid (some u) seedS = u ∧
    DMX_MVR_X_Client.init_uuid none seedC = uuid4 seedC ∧
    DMX_MVR_X_Server.init_uuid none seedS = uuid4 seedS ∧
    uuid4 seedC ≠ 0 :=
  ⟨rfl, rfl, rfl, rfl, uuid4_ne_zero seedC⟩

/-- C1, witness for the amended theorem at concrete inputs. -/
theorem mvrx_C1_witness :
    DMX_MVR_X_Client.init_uuid (some 7) 0 = 7 ∧
    DMX_MVR_X_Server.init_uuid (some 7) 1 = 7 ∧
    DMX_MVR_X_Client.init_uuid none 0 = uuid4 0 ∧
    DMX_MVR_X_Server.init_uuid none 1 = uuid4 1 ∧
    uuid4 0 ≠ 0 :=
  mvrx_C1_amended 7 0 1

/-! ## Claim C3 — messages without a StationUUID -/

/-- C3: an inbound message lacking the `StationUUID` field makes both
`DMX_MVR_X_Client.callback` and `DMX_MVR_X_Server.callback` log it and
ignore it: the produced trace is exactly the log line(s) — no commit-log,
peer-directory or download-notification handler runs — no client state
changes, and the connection is not closed. -/
theorem mvrx_C3_missing_station_uuid (m : Message) (addr : String)
    (port : Nat) (s : ClientGlobal) (h : m.StationUUID = none) :
    DMX_MVR_X_Client.callback m = [Eff.print "Bad response"] ∧
    DMX_MVR_X_Server.callback m addr port =
      [Eff.print "callback", Eff.print "Bad response"] ∧
    applyClientEffs s (DMX_MVR_X_Client.callback m) = s ∧
    Eff.closeConnection ∉ DMX_MVR_X_Client.callback m ∧
    Eff.closeConnection ∉ DMX_MVR_X_Server.callback m addr port := by
  simp [DMX_MVR_X_Client.callback, DMX_MVR_X_Server.callback, h,
        applyClientEffs, applyClientEff]

/-- C3, witness: the empty message at a concrete address and state. -/
theorem mvrx_C3_witness :
    DMX_MVR_X_Client.callback mEmpty = [Eff.print "Bad response"] ∧
    DMX_MVR_X_Server.callback mEmpty "10.0.0.3" 9000 =
      [Eff.print "callback", Eff.print "Bad response"] ∧
    applyClientEffs sConn (DMX_MVR_X_Client.callback mEmpty) = sConn ∧
    Eff.closeConnection ∉ DMX_MVR_X_Client.callback mEmpty ∧
    Eff.closeConnection ∉ DMX_MVR_X_Server.callback mEmpty "10.0.0.3" 9000 :=
  mvrx_C3_missing_station_uuid mEmpty "10.0.0.3" 9000 sConn rfl

/-! ## Claim C6 — connect on an unreachable peer -/

/-- C6, counterexample.  The claim says a failed transport construction is
"surfaced to the caller" as a `ConnectionError`.  In the code (lines
86–88) the exception is caught, printed and swallowed: `connect` returns
normally, raises nothing, and leaves the state — in particular the
still-unset `client` field — unchanged. -/
theorem mvrx_C6_counterexample :
    Eff.raiseError PyErr.connectionError ∉
      (DMX_MVR_X_Client.connect oracleF 0 sSel).2.1 ∧
    (DMX_MVR_X_Client.connect oracleF 0 sSel).1 = sSel := by
  decide

/-- C6, amended: when the transport cannot be established, `connect`
makes exactly one construction attempt (no internal retry: the attempt
counter advances by one), swallows the failure — its trace is just the
two log prints, no error is raised to the caller — and leaves the client
state unchanged. -/
theorem mvrx_C6_amended (oracle : Nat → Bool) (k : Nat) (s : ClientGlobal)
    (inst : ClientInstance) (peer : Peer)
    (h1 : s._instance = some inst) (h2 : inst.selected_client = some peer)
    (h3 : oracle k = false) :
    DMX_MVR_X_Client.connect oracle k s =
      (s, [Eff.print "Connecting to MVR-xchange client",
           Eff.print "Cannot connect to host"], k + 1) := by
  simp [DMX_MVR_X_Client.connect, h1, h2, h3]

/-- C6, witness for the amended theorem at concrete inputs. -/
theorem mvrx_C6_witness :
    DMX_MVR_X_Client.connect oracleF 0 sSel =
      (sSel, [Eff.print "Connecting to MVR-xchange client",
              Eff.print "Cannot connect to host"], 1) :=
  mvrx_C6_amended oracleF 0 sSel instSel ⟨"10.0.0.7", 1234⟩ rfl rfl rfl

/-! ## Claim C9 — join on a failed connection -/

/-- C9: when the transport to the selected peer cannot be established,
`connect()` (called from `join`, line 96) swallows the constructor's
exception and leaves the fresh instance's `client` field as `None`, so
the unconditional `_instance.client.join_mvr()` at line 97 raises an
uncaught `AttributeError` on `None` — the caller sees that attribute
error, not a connection-failure report. -/
theorem mvrx_C9_join_attribute_error (prefs : Option Nat) (seed : Nat)
    (oracle : Nat → Bool) (k : Nat) (s : ClientGlobal) (peer : Peer)
    (h : oracle k = false) :
    DMX_MVR_X_Client.join prefs seed oracle k s peer =
      Except.error PyErr.attributeErrorNoneType := by
  simp [DMX_MVR_X_Client.join, DMX_MVR_X_Client.connect,
        DMX_MVR_X_Client.new_instance, h]

/-- C9, witness at concrete inputs. -/
theorem mvrx_C9_witness :
    DMX_MVR_X_Client.join none 0 oracleF 0 sNone peerY =
      Except.error PyErr.attributeErrorNoneType :=
  mvrx_C9_join_attribute_error none 0 oracleF 0 sNone peerY rfl

/-! ## Claim C10 — enable is idempotent on the server singleton -/

/-- C10: when a server instance already exists, `DMX_MVR_X_Server.enable`
returns immediately (lines 176–177): the state is unchanged, no effect is
produced, and no transport construction is even attempted (the attempt
counter does not advance), so at most one server instance exists per
process. -/
theorem mvrx_C10_enable_idempotent (prefs : Option Nat) (seed : Nat)
    (oracle : Nat → Bool) (k : Nat) (s : ServerGlobal) (i : ServerInstance)
    (h : s._instance = some i) :
    DMX_MVR_X_Server.enable prefs seed oracle k s = (s, [], k) := by
  simp [DMX_MVR_X_Server.enable, h]

/-- C10, witness at a concrete enabled server state. -/
theorem mvrx_C10_witness :
    DMX_MVR_X_Server.enable none 0 oracleT 0 sSrv = (sSrv, [], 0) :=
  mvrx_C10_enable_idempotent none 0 oracleT 0 sSrv
    { server := some ⟨11⟩, application_uuid := 11 } rfl

/-! ## Claim C2 — rejected join -/

/-- C2: a join acknowledgement with `Type = "MVR_JOIN_RET"` and `OK`
equal to the boolean `false` makes `DMX_MVR_X_Client.callback` surface
exactly one rejection — one error log line and one write of `False` to
`dmx.mvrx_enabled` — and, through the (spec-modelled) `mvrx_enabled`
update handler, the client session ends `Disconnected`
(`_instance = None`) with further join attempts disabled. -/
theorem mvrx_C2_join_rejection (m : Message) (u : String) (s : ClientGlobal)
    (h1 : m.StationUUID = some u)
    (h2 : m.Type_.getD "" = "MVR_JOIN_RET")
    (h3 : m.OK = some (JVal.jbool false)) :
    (DMX_MVR_X_Client.callback m).count (Eff.setMvrxEnabled false) = 1 ∧
    (DMX_MVR_X_Client.callback m).count
      (Eff.logError "MVR-xchange client refused our connection") = 1 ∧
    (applyClientEffs s (DMX_MVR_X_Client.callback m))._instance = none ∧
    join_attempts_allowed
      (applyClientEffs s (DMX_MVR_X_Client.callback m)) = false := by
  cases hcm : m.Commits <;> cases hfu : m.FileUUID <;>
    cases hpr : m.Provider <;> cases hfd : m.file_downloaded <;>
    cases hs : s._instance <;>
    simp [DMX_MVR_X_Client.callback, h1, h2, h3, hcm, hfu, hpr, hfd, hs,
          applyClientEffs, applyClientEff, on_mvrx_enabled_set,
          DMX_MVR_X_Client.disable, join_attempts_allowed,
          List.count_append, List.count_cons, List.count_nil]

/-- C2, witness: a concrete rejection message applied to a live session. -/
theorem mvrx_C2_witness :
    (DMX_MVR_X_Client.callback
      { StationUUID := some "S", Type_ := some "MVR_JOIN_RET",
        OK := some (JVal.jbool false) }).count (Eff.setMvrxEnabled false) = 1 ∧
    (DMX_MVR_X_Client.callback
      { StationUUID := some "S", Type_ := some "MVR_JOIN_RET",
        OK := some (JVal.jbool false) }).count
      (Eff.logError "MVR-xchange client refused our connection") = 1 ∧
    (applyClientEffs sConn (DMX_MVR_X_Client.callback
      { StationUUID := some "S", Type_ := some "MVR_JOIN_RET",
        OK := some (JVal.jbool false) }))._instance = none ∧
    join_attempts_allowed (applyClientEffs sConn (DMX_MVR_X_Client.callback
      { StationUUID := some "S", Type_ := some "MVR_JOIN_RET",
        OK := some (JVal.jbool false) })) = false :=
  mvrx_C2_join_rejection _ "S" sConn rfl rfl rfl

/-! ## Claim C5 — request_file without a joined session -/

/-- C5, counterexample.  The claim says `requestFile(commit)` with no
active joined session "fails with NotConnected".  In the code (lines
52–53) it silently returns: the trace is empty — no error of any kind is
raised — and the state is untouched. -/
theorem mvrx_C5_counterexample :
    DMX_MVR_X_Client.request_file oracleT 0 "ADDON" sNone cX =
      (sNone, [], 0) ∧
    Eff.raiseError PyErr.notConnected ∉
      (DMX_MVR_X_Client.request_file oracleT 0 "ADDON" sNone cX).2.1 := by
  decide

/-- C5, amended: with no instance (or no attached transport) `request_file`
is a silent no-op — it starts no transfer but also signals nothing, in
particular no `NotConnected` failure; when an instance with an attached
transport exists, it reconnects and delegates the request, with the
path derived from the commit, to the transport. -/
theorem mvrx_C5_amended (oracle : Nat → Bool) (k : Nat) (addon_path : String)
    (commit : Commit) (s : ClientGlobal) (inst : ClientInstance)
    (t : Transport)
    (h1 : s._instance = some inst) (h2 : inst.client = some t) :
    Eff.request_file_transport commit.commit_uuid
        (client_target_path addon_path commit)
        ∈ (DMX_MVR_X_Client.request_file oracle k addon_path s commit).2.1 ∧
    DMX_MVR_X_Client.request_file oracle k addon_path
        { s with _instance := none } commit
      = ({ s with _instance := none }, [], k) ∧
    Eff.raiseError PyErr.notConnected ∉
      (DMX_MVR_X_Client.request_file oracle k addon_path
        { s with _instance := none } commit).2.1 ∧
    DMX_MVR_X_Client.request_file oracle k addon_path
        { s with _instance := some { inst with client := none } } commit
      = ({ s with _instance := some { inst with client := none } }, [], k) ∧
    Eff.raiseError PyErr.notConnected ∉
      (DMX_MVR_X_Client.request_file oracle k addon_path
        { s with _instance := some { inst with client := none } } commit).2.1 := by
  obtain ⟨inst2, t2, e1, e2⟩ := connect_keeps_client oracle k s inst t h1 h2
  refine ⟨?_, by simp [DMX_MVR_X_Client.request_file],
    by simp [DMX_MVR_X_Client.request_file],
    by simp [DMX_MVR_X_Client.request_file],
    by simp [DMX_MVR_X_Client.request_file]⟩
  simp [DMX_MVR_X_Client.request_file, h1, h2, e1, e2]

/-- C5, witness for the amended theorem at concrete inputs. -/
theorem mvrx_C5_witness :
    Eff.request_file_transport cX.commit_uuid
        (client_target_path "ADDON" cX)
        ∈ (DMX_MVR_X_Client.request_file oracleT 0 "ADDON" sConn cX).2.1 ∧
    DMX_MVR_X_Client.request_file oracleT 0 "ADDON"
        { sConn with _instance := none } cX
      = ({ sConn with _instance := none }, [], 0) ∧
    Eff.raiseError PyErr.notConnected ∉
      (DMX_MVR_X_Client.request_file oracleT 0 "ADDON"
        { sConn with _instance := none } cX).2.1 ∧
    DMX_MVR_X_Client.request_file oracleT 0 "ADDON"
        { sConn with _instance := some { instY with client := none } } cX
      = ({ sConn with _instance := some { instY with client := none } }, [], 0) ∧
    Eff.raiseError PyErr.notConnected ∉
      (DMX_MVR_X_Client.request_file oracleT 0 "ADDON"
        { sConn with _instance := some { instY with client := none } } cX).2.1 :=
  mvrx_C5_amended oracleT 0 "ADDON" cX sConn instY tY rfl rfl

/-- `leave` on a state with no instance is the identity (lines 113–115:
the whole body is guarded by `if DMX_MVR_X_Client._instance`). -/
lemma leave_disconnected (oracle : Nat → Bool) (k : Nat) (s : ClientGlobal)
    (h : s._instance = none) :
    DMX_MVR_X_Client.leave oracle k s = (s, [], k) := by
  simp [DMX_MVR_X_Client.leave, h]

/-! ## Claim C7 — leave -/

/-- C7, counterexample.  The claim partitions states into "Disconnected
(no live instance)", where `leave()` must be a state-preserving no-op,
and all others, where it must send the LEAVE notification.  The state in
which an instance exists but carries no transport (`client is None` —
reachable, e.g. left behind by a `join()` whose connection failed) does
neither: `leave()` sends no LEAVE yet changes the state (it clears
`_instance`, lines 121–122). -/
theorem mvrx_C7_counterexample :
    sHalf._instance ≠ none ∧
    Eff.leave_mvr ∉ (DMX_MVR_X_Client.leave oracleT 0 sHalf).2.1 ∧
    (DMX_MVR_X_Client.leave oracleT 0 sHalf).1 ≠ sHalf := by
  decide

/-- C7, amended: `leave()` on a state with no instance is a no-op; on a
state whose instance has an attached transport it sends the LEAVE
notification, waits the grace period and tears the transport down; when
an instance exists but no transport is attached it only clears the
instance (no LEAVE is sent).  In every case the client ends
`Disconnected` (`_instance = None`), so a second `leave()` is a no-op —
`leave` is idempotent. -/
theorem mvrx_C7_amended (oracle : Nat → Bool) (k k2 : Nat)
    (s : ClientGlobal) (inst : ClientInstance) (t : Transport)
    (h1 : s._instance = some inst) (h2 : inst.client = some t) :
    ((DMX_MVR_X_Client.leave oracle k s).1)._instance = none ∧
    Eff.leave_mvr ∈ (DMX_MVR_X_Client.leave oracle k s).2.1 ∧
    Eff.sleepGrace ∈ (DMX_MVR_X_Client.leave oracle k s).2.1 ∧
    Eff.stopTransport ∈ (DMX_MVR_X_Client.leave oracle k s).2.1 ∧
    DMX_MVR_X_Client.leave oracle k2 ((DMX_MVR_X_Client.leave oracle k s).1)
      = ((DMX_MVR_X_Client.leave oracle k s).1, [], k2) ∧
    DMX_MVR_X_Client.leave oracle k2 sHalf = (⟨none, sHalf.mvrx_enabled⟩,
      [Eff.logInfo "Disabling MVR"], k2) := by
  obtain ⟨inst2, t2, e1, e2⟩ := connect_keeps_client oracle k s inst t h1 h2
  have hred :
      DMX_MVR_X_Client.leave oracle k s =
        ({ (DMX_MVR_X_Client.connect oracle k s).1 with _instance := none },
         (DMX_MVR_X_Client.connect oracle k s).2.1 ++
           [Eff.leave_mvr, Eff.sleepGrace, Eff.stopTransport,
            Eff.logInfo "Disabling MVR"],
         (DMX_MVR_X_Client.connect oracle k s).2.2) := by
    simp [DMX_MVR_X_Client.leave, h1, h2, e1, e2]
  have hdisc : ((DMX_MVR_X_Client.leave oracle k s).1)._instance = none := by
    simp [hred]
  refine ⟨hdisc, by simp [hred], by simp [hred], by simp [hred],
    leave_disconnected oracle k2 _ hdisc, ?_⟩
  simp [DMX_MVR_X_Client.leave, sHalf, instNoClient]

/-- C7, witness for the amended theorem at concrete inputs. -/
theorem mvrx_C7_witness :
    ((DMX_MVR_X_Client.leave oracleT 0 sConn).1)._instance = none ∧
    Eff.leave_mvr ∈ (DMX_MVR_X_Client.leave oracleT 0 sConn).2.1 ∧
    Eff.sleepGrace ∈ (DMX_MVR_X_Client.leave oracleT 0 sConn).2.1 ∧
    Eff.stopTransport ∈ (DMX_MVR_X_Client.leave oracleT 0 sConn).2.1 ∧
    DMX_MVR_X_Client.leave oracleT 7 ((DMX_MVR_X_Client.leave oracleT 0 sConn).1)
      = ((DMX_MVR_X_Client.leave oracleT 0 sConn).1, [], 7) ∧
    DMX_MVR_X_Client.leave oracleT 7 sHalf = (⟨none, sHalf.mvrx_enabled⟩,
      [Eff.logInfo "Disabling MVR"], 7) :=
  mvrx_C7_amended oracleT 0 7 sConn instY tY rfl rfl

/-! ## Claim C8 — file-transfer target paths -/

/-- C8: the claim says requests issued via the Server path name the same
deterministic `<commit_uuid>.mvr` target as the Client path.  The path
expressions at lines 55–56 (client) and 165–166 (server) are indeed
identical, but `DMX_MVR_X_Server.request_file` never reaches its own:
its guard (line 164) reads `_instance.DMX_MVR_X_Server`, an attribute
that does not exist, so with a server enabled every call raises an
uncaught `AttributeError` before the path is computed — while line 168
uses `_instance.server`, showing the guard is a slip for
`_instance.server`.  The code therefore contradicts the claim's (and its
own) clear intent. -/
theorem mvrx_C8_server_guard_bug :
    DMX_MVR_X_Server.request_file sSrv cX =
      Except.error PyErr.attributeErrorMissingAttr ∧
    client_target_path "ADDON" cX = server_target_path "ADDON" cX ∧
    client_target_path "ADDON" cX = "ADDON/assets/mvrs/c9.mvr" :=
  ⟨rfl, rfl, rfl⟩

/-! ## Claim C4 — dispatch of messages carrying a StationUUID -/

/-- Characterization of the client dispatch (lines 33–48): for a message
carrying a `StationUUID`, each handler call appears in the trace exactly
when the corresponding field is present — independently of the other
fields. -/
lemma client_dispatch (m : Message) (u : String) (cs : List Commit)
    (p path : String) (h : m.StationUUID = some u) :
    (Eff.createMVR_Commits_list cs u ∈ DMX_MVR_X_Client.callback m ↔
       m.Commits = some cs) ∧
    (Eff.createMVR_Commits_single m u ∈ DMX_MVR_X_Client.callback m ↔
       m.FileUUID.isSome = true) ∧
    (Eff.updateMVR_Client p u ∈ DMX_MVR_X_Client.callback m ↔
       m.Provider = some p) ∧
    (Eff.fetched_mvr_downloaded_file path ∈ DMX_MVR_X_Client.callback m ↔
       m.file_downloaded = some path) ∧
    (Eff.setMvrxEnabled false ∈ DMX_MVR_X_Client.callback m ↔
       (m.Type_.getD "" = "MVR_JOIN_RET" ∧ m.OK = some (JVal.jbool false))) := by
  by_cases hjr : m.Type_.getD "" = "MVR_JOIN_RET" ∧ m.OK = some (JVal.jbool false) <;>
    cases hcm : m.Commits <;> cases hfu : m.FileUUID <;>
    cases hpr : m.Provider <;> cases hfd : m.file_downloaded <;>
    simp [DMX_MVR_X_Client.callback, h, hjr, hcm, hfu, hpr, hfd, eq_comm]

/-- Characterization of the server dispatch (lines 148–159): same
field-keyed, mutually independent handler selection; the server has no
join-acknowledgement branch. -/
lemma server_dispatch (m : Message) (u addr : String) (port : Nat)
    (cs : List Commit) (p path : String) (h : m.StationUUID = some u) :
    (Eff.createMVR_Commits_list cs u ∈ DMX_MVR_X_Server.callback m addr port ↔
       m.Commits = some cs) ∧
    (Eff.createMVR_Commits_single m u ∈ DMX_MVR_X_Server.callback m addr port ↔
       m.FileUUID.isSome = true) ∧
    (Eff.createMVR_Client (m.StationName.getD "") u none addr port p ∈
        DMX_MVR_X_Server.callback m addr port ↔ m.Provider = some p) ∧
    (Eff.fetched_mvr_downloaded_file path ∈ DMX_MVR_X_Server.callback m addr port ↔
       m.file_downloaded = some path) := by
  cases hcm : m.Commits <;> cases hfu : m.FileUUID <;>
    cases hpr : m.Provider <;> cases hfd : m.file_downloaded <;>
    simp [DMX_MVR_X_Server.callback, h, hcm, hfu, hpr, hfd, eq_comm]

/-- A sample commit used by the C4 counterexample. -/
def c0 : Commit := ⟨"c1", "f1", "A1", 0, ""⟩

/-- A message that is simultaneously a commit-list message and a
peer-info message. -/
def mX : Message :=
  { StationUUID := some "S1", Commits := some [c0], Provider := some "OtherApp" }

/-- C4, counterexample.  The claim says each message triggers *exactly*
the handler of its one kind — in particular a commit-list message
"updates only the commit log".  But the handlers are keyed on field
presence by independent `if`s (no `elif`): the message `mX`, which
carries both `Commits` and `Provider`, triggers the commit-log handler
*and* the peer-directory handler in one callback run. -/
theorem mvrx_C4_counterexample :
    mX.Commits.isSome = true ∧
    Eff.createMVR_Commits_list [c0] "S1" ∈ DMX_MVR_X_Client.callback mX ∧
    Eff.updateMVR_Client "OtherApp" "S1" ∈ DMX_MVR_X_Client.callback mX := by
  decide

/-- C4, amended: for every inbound message carrying a `StationUUID`,
handling is keyed on which recognized fields are present, one handler
per present field, each handler independent of the other fields: a
`Commits` field triggers (only) the commit-log update for that list, a
`FileUUID` field triggers the single-commit form of the commit-log
update (not a transfer completion), a `Provider` field triggers (only)
the peer-directory update, a `file_downloaded` field triggers (only) the
download notification, and (client only) `Type = "MVR_JOIN_RET"` with
`OK = false` triggers the join-rejection transition.  A message carrying
exactly one such field triggers exactly one handler; a message carrying
several triggers all of them. -/
theorem mvrx_C4_amended (m : Message) (u addr : String) (port : Nat)
    (cs : List Commit) (p path : String) (h : m.StationUUID = some u) :
    (Eff.createMVR_Commits_list cs u ∈ DMX_MVR_X_Client.callback m ↔
       m.Commits = some cs) ∧
    (Eff.createMVR_Commits_single m u ∈ DMX_MVR_X_Client.callback m ↔
       m.FileUUID.isSome = true) ∧
    (Eff.updateMVR_Client p u ∈ DMX_MVR_X_Client.callback m ↔
       m.Provider = some p) ∧
    (Eff.fetched_mvr_downloaded_file path ∈ DMX_MVR_X_Client.callback m ↔
       m.file_downloaded = some path) ∧
    (Eff.setMvrxEnabled false ∈ DMX_MVR_X_Client.callback m ↔
       (m.Type_.getD "" = "MVR_JOIN_RET" ∧ m.OK = some (JVal.jbool false))) ∧
    (Eff.createMVR_Commits_list cs u ∈ DMX_MVR_X_Server.callback m addr port ↔
       m.Commits = some cs) ∧
    (Eff.createMVR_Commits_single m u ∈ DMX_MVR_X_Server.callback m addr port ↔
       m.FileUUID.isSome = true) ∧
    (Eff.createMVR_Client (m.StationName.getD "") u none addr port p ∈
        DMX_MVR_X_Server.callback m addr port ↔ m.Provider = some p) ∧
    (Eff.fetched_mvr_downloaded_file path ∈ DMX_MVR_X_Server.callback m addr port ↔
       m.file_downloaded = some path) := by
  obtain ⟨a1, a2, a3, a4, a5⟩ := client_dispatch m u cs p path h
  obtain ⟨b1, b2, b3, b4⟩ := server_dispatch m u addr port cs p path h
  exact ⟨a1, a2, a3, a4, a5, b1, b2, b3, b4⟩

/-- C4, witness for the amended theorem at the concrete message `mX`. -/
theorem mvrx_C4_witness :
    (Eff.createMVR_Commits_list [c0] "S1" ∈ DMX_MVR_X_Client.callback mX ↔
       mX.Commits = some [c0]) ∧
    (Eff.createMVR_Commits_single mX "S1" ∈ DMX_MVR_X_Client.callback mX ↔
       mX.FileUUID.isSome = true) ∧
    (Eff.updateMVR_Client "OtherApp" "S1" ∈ DMX_MVR_X_Client.callback mX ↔
       mX.Provider = some "OtherApp") ∧
    (Eff.fetched_mvr_downloaded_file "dl" ∈ DMX_MVR_X_Client.callback mX ↔
       mX.file_downloaded = some "dl") ∧
    (Eff.setMvrxEnabled false ∈ DMX_MVR_X_Client.callback mX ↔
       (mX.Type_.getD "" = "MVR_JOIN_RET" ∧ mX.OK = some (JVal.jbool false))) ∧
    (Eff.createMVR_Commits_list [c0] "S1" ∈
        DMX_MVR_X_Server.callback mX "10.1.1.1" 1900 ↔ mX.Commits = some [c0]) ∧
    (Eff.createMVR_Commits_single mX "S1" ∈
        DMX_MVR_X_Server.callback mX "10.1.1.1" 1900 ↔ mX.FileUUID.isSome = true) ∧
    (Eff.createMVR_Client (mX.StationName.getD "") "S1" none "10.1.1.1" 1900
        "OtherApp" ∈ DMX_MVR_X_Server.callback mX "10.1.1.1" 1900 ↔
       mX.Provider = some "OtherApp") ∧
    (Eff.fetched_mvr_downloaded_file "dl" ∈
        DMX_MVR_X_Server.callback mX "10.1.1.1" 1900 ↔
       mX.file_downloaded = some "dl") :=
  mvrx_C4_amended mX "S1" "10.1.1.1" 1900 [c0] "OtherApp" "dl" rfl
